import Mathlib

/-!
Shallow embedding of the Flask blog application in `src/main.py`.

The application keeps three tables (users, blog_posts, comments) in a
relational store and tracks the logged-in user through a Flask-Login
session.  We model the store as three lists, the session as an
`Option Nat` holding the id of the current user (`none` = anonymous
visitor), and each route handler as a pure function from the application
state (plus the submitted form data) to a response together with the new
state.

Modelling decisions, each tied to the source:
* `generate_password_hash(pw, method=pbkdf2, salt_length=8)` draws a
  random salt; we pass the salt in explicitly and represent the salted
  hash as the abstract pair `(salt, pw)`.  `check_password_hash(h, pw)`
  verifies iff the hash was produced from `pw` — the ideal,
  collision-free behaviour of the PBKDF2 pair in werkzeug.
* SQLite assigns autoincrementing integer primary keys: the next id is
  one more than the largest id present (`nextId`).
* The `title` column of `blog_posts` carries `unique=True`; a commit
  that inserts or updates a duplicate title is rejected by the schema
  and surfaces as an unhandled IntegrityError (`Response.integrityError`).
* `db.session.delete(None)` and attribute access on a `None` query
  result raise in Python; these unhandled exceptions are modelled by
  `Response.serverError`.
* Handlers that re-render a template (with or without a flash message)
  return `Response.html`; redirects keep their targets.
-/

/-- The salted password hash produced by werkzeug's
`generate_password_hash`: an abstract pair of the random salt and the
hashed password. -/
structure HashVal where
  salt : Nat
  pw : String
deriving Repr, DecidableEq

/-- `werkzeug.security.generate_password_hash` with pbkdf2:sha256 and a
given salt (src/main.py lines 118-122). -/
def generate_password_hash (salt : Nat) (pw : String) : HashVal :=
  ⟨salt, pw⟩

/-- `werkzeug.security.check_password_hash`: verifies iff the hash was
generated from this password (src/main.py line 149). -/
def check_password_hash (h : HashVal) (pw : String) : Bool :=
  h.pw == pw

/-- Row of the `users` table (src/main.py lines 62-71). -/
structure User where
  id : Nat
  email : String
  password : HashVal
  name : String
deriving Repr, DecidableEq

/-- Row of the `blog_posts` table (src/main.py lines 47-59).
`author_id` is a nullable foreign key into `users`. -/
structure BlogPost where
  id : Nat
  author_id : Option Nat
  title : String
  subtitle : String
  date : String
  body : String
  img_url : String
deriving Repr, DecidableEq

/-- Row of the `comments` table (src/main.py lines 74-83).
`comment_author_id` and `parent_post_id` are nullable foreign keys;
SQLite does not enforce them (foreign_keys pragma is off by default). -/
structure Comment where
  id : Nat
  text : String
  comment_author_id : Option Nat
  parent_post_id : Option Nat
deriving Repr, DecidableEq

/-- Whole application state: the three tables plus the Flask-Login
session (`some uid` = the id of `current_user`, `none` = anonymous). -/
structure AppState where
  users : List User
  posts : List BlogPost
  comments : List Comment
  session : Option Nat
deriving Repr, DecidableEq

/-- The empty database produced by `db.create_all()` on a fresh file,
with no one logged in. -/
def emptyState : AppState := ⟨[], [], [], none⟩

/-- SQLite autoincrement: the next primary key is one more than the
largest key in the table. -/
def nextId (ids : List Nat) : Nat :=
  ids.foldr max 0 + 1

/-- Responses a route handler can produce. `html` is a rendered
template (possibly after a `flash`), the `redirect*` constructors are
the `redirect(url_for(...))` calls, `forbidden` is `abort(403)`,
`integrityError` is an IntegrityError raised by a schema constraint at
`db.session.commit()`, and `serverError` is any other unhandled Python
exception (both surface as 5xx pages and roll the transaction back). -/
inductive Response where
  | html
  | redirectIndex
  | redirectLogin
  | redirectPost (post_id : Nat)
  | forbidden
  | integrityError
  | serverError
deriving Repr, DecidableEq

/-- `current_user.is_authenticated and current_user.id == 1` — the test
inside the `admin_only` decorator (src/main.py line 94). -/
def is_admin (s : AppState) : Bool :=
  match s.session with
  | none => false
  | some uid => uid == 1

/-- The `admin_only` decorator (src/main.py lines 90-97): if the caller
is not the admin, `abort(403)` before the wrapped handler runs, so the
state is untouched. -/
def admin_only (s : AppState) (handler : Response × AppState) :
    Response × AppState :=
  if is_admin s then handler else (.forbidden, s)

/-- The `/register` POST branch (src/main.py lines 106-135): if a user
with the submitted email already exists, flash and redirect to login;
otherwise hash the password, insert the row and log the new user in. -/
def register (s : AppState) (salt : Nat) (email pw nm : String) :
    Response × AppState :=
  if (s.users.find? (fun u => u.email == email)).isSome then
    (.redirectLogin, s)
  else
    let hashed := generate_password_hash salt pw
    let new_user : User := ⟨nextId (s.users.map (fun u => u.id)), email, hashed, nm⟩
    (.redirectIndex,
      { s with users := s.users ++ [new_user], session := some new_user.id })

/-- The `/login` POST branch (src/main.py lines 138-157): look the user
up by email; flash on unknown email or failed hash check, otherwise
`login_user` and redirect to the index. -/
def login (s : AppState) (email pw : String) : Response × AppState :=
  match s.users.find? (fun u => u.email == email) with
  | none => (.html, s)
  | some found_user =>
    if !(check_password_hash found_user.password pw) then
      (.html, s)
    else
      (.redirectIndex, { s with session := some found_user.id })

/-- The `/logout` route (src/main.py lines 160-163): `logout_user()`
then redirect to the index.  Flask-Login's `logout_user` succeeds for
anonymous callers too. -/
def logout (s : AppState) : Response × AppState :=
  (.redirectIndex, { s with session := none })

/-- The comment-submission branch of `/post/<post_id>` (src/main.py
lines 166-189): an anonymous caller is flashed and redirected to login;
an authenticated caller gets a Comment row inserted whose
`parent_post_id` is the submitted `post_id` — the row is written even
when `BlogPost.query.get(post_id)` returned `None`. -/
def show_post (s : AppState) (post_id : Nat) (text : String) :
    Response × AppState :=
  match s.session with
  | none => (.redirectLogin, s)
  | some uid =>
    let new_comment : Comment :=
      ⟨nextId (s.comments.map (fun c => c.id)), text, some uid, some post_id⟩
    (.html, { s with comments := s.comments ++ [new_comment] })

/-- The `/new-post` POST branch (src/main.py lines 202-218), behind
`admin_only`.  The `title` column is `unique=True`, so committing a
duplicate title raises an IntegrityError and inserts nothing; otherwise
the post is stamped with today's date and the current user as author. -/
def add_new_post (s : AppState) (today title subtitle body img_url : String) :
    Response × AppState :=
  admin_only s
    (if s.posts.any (fun p => p.title == title) then
      (.integrityError, s)
    else
      let new_post : BlogPost :=
        ⟨nextId (s.posts.map (fun p => p.id)), s.session,
          title, subtitle, today, body, img_url⟩
      (.redirectIndex, { s with posts := s.posts ++ [new_post] }))

/-- The `/edit-post/<post_id>` submit branch (src/main.py lines
221-241), behind `admin_only`.  A missing post makes `post.title` raise
on `None`.  The handler assigns exactly title, subtitle, img_url,
author and body — never `date` or `id` — and commits; the schema's
unique-title constraint rejects a title already used by another post. -/
def edit_post (s : AppState) (post_id : Nat) (title subtitle img_url : String)
    (author : Option Nat) (body : String) : Response × AppState :=
  admin_only s
    (match s.posts.find? (fun p => p.id == post_id) with
    | none => (.serverError, s)
    | some post =>
      if s.posts.any (fun p => p.title == title && p.id != post_id) then
        (.integrityError, s)
      else
        let post1 : BlogPost :=
          { post with title := title, subtitle := subtitle,
                      img_url := img_url, author_id := author, body := body }
        (.redirectPost post_id,
          { s with posts := s.posts.map (fun q => if q.id == post_id then post1 else q) }))

/-- The `/delete/<post_id>` route (src/main.py lines 244-250), behind
`admin_only`.  `BlogPost.query.get` on a missing id yields `None` and
`db.session.delete(None)` raises (UnmappedInstanceError), so nothing is
deleted; on a hit the row is removed.  Child comments keep their
`parent_post_id` (no cascade is configured and SQLite does not enforce
the foreign key). -/
def delete_post (s : AppState) (post_id : Nat) : Response × AppState :=
  admin_only s
    (match s.posts.find? (fun p => p.id == post_id) with
    | none => (.serverError, s)
    | some _ =>
      (.redirectIndex,
        { s with posts := s.posts.filter (fun p => p.id != post_id) }))

/-- A stored author reference resolves to an existing user row. -/
def validAuthor (s : AppState) (a : Option Nat) : Bool :=
  match a with
  | none => false
  | some uid => s.users.any (fun u => u.id == uid)

/-- A stored parent-post reference resolves to an existing post row. -/
def validParentPost (s : AppState) (a : Option Nat) : Bool :=
  match a with
  | none => false
  | some pid => s.posts.any (fun p => p.id == pid)

/-- Referential integrity of the data model: every comment has a valid
author and a valid parent post, and every post has a valid author. -/
def refIntegrity (s : AppState) : Bool :=
  s.comments.all
      (fun c => validAuthor s c.comment_author_id &&
                validParentPost s c.parent_post_id)
    && s.posts.all (fun p => validAuthor s p.author_id)

/-- Fixture: the first registered user; by the hardcoded convention of
`admin_only` (id 1) this account is the admin. -/
def userW : User := ⟨1, "a@x.com", ⟨0, "pw"⟩, "A"⟩

/-- Fixture: a second registered user, not the admin. -/
def userB : User := ⟨2, "b@x.com", ⟨3, "pw2"⟩, "B"⟩

/-- Fixture: one stored blog post, authored by the admin. -/
def postW : BlogPost :=
  ⟨1, some 1, "Hello", "Sub", "January 01, 2024", "Body", "img"⟩

/-- Fixture: state with the admin logged in. -/
def stAdmin : AppState := ⟨[userW], [postW], [], some 1⟩

/-- Fixture: state with the non-admin user logged in. -/
def stUser : AppState := ⟨[userW, userB], [postW], [], some 2⟩

/-- Fixture: state with nobody logged in. -/
def stAnon : AppState := ⟨[userW], [postW], [], none⟩

/-- Fixture: non-admin logged in, no posts stored. -/
def stUserNoPosts : AppState := ⟨[userW, userB], [], [], some 2⟩

/-- Fixture: admin logged in, no posts stored. -/
def stAdminNoPosts : AppState := ⟨[userW], [], [], some 1⟩

theorem find?_map_update (l : List BlogPost) (pid : Nat) (post post1 : BlogPost)
    (hfind : l.find? (fun p => p.id == pid) = some post)
    (hid : post1.id = post.id) :
    (l.map (fun q => if q.id == pid then post1 else q)).find?
        (fun p => p.id == pid) = some post1 := by
  induction l with
  | nil => simp at hfind
  | cons a tl ih =>
    by_cases hb : a.id = pid
    · have ha : a = post := by simpa [List.find?_cons, hb] using hfind
      have h1 : post1.id = pid := by rw [hid, ← ha]; exact hb
      simp [List.find?_cons, hb, h1, -List.find?_map]
    · have hfind2 : tl.find? (fun p => p.id == pid) = some post := by
        simpa [List.find?_cons, hb] using hfind
      simpa [List.find?_cons, hb, -List.find?_map] using ih hfind2

/-- C1: for every identity that is not the admin (including an
anonymous one), each of the three admin-restricted handlers —
`add_new_post` (create), `edit_post` (update) and `delete_post` —
returns Forbidden (abort 403) and leaves the whole state, in particular
the stored posts, exactly as it was: the `admin_only` gate runs before
the handler body, so a failed check causes no partial mutation. -/
theorem admin_gate_forbidden (s : AppState) (today t st b img : String)
    (au : Option Nat) (pid : Nat) (h : is_admin s = false) :
    add_new_post s today t st b img = (.forbidden, s)
    ∧ edit_post s pid t st img au b = (.forbidden, s)
    ∧ delete_post s pid = (.forbidden, s) := by
  refine ⟨?_, ?_, ?_⟩ <;> simp [add_new_post, edit_post, delete_post, admin_only, h]

/-- Witness for C1: the logged-in non-admin user (id 2) is rejected by
all three admin-gated handlers with the state unchanged. -/
theorem admin_gate_forbidden_witness :
    is_admin stUser = false
    ∧ (add_new_post stUser "d" "T" "S" "B" "I" = (.forbidden, stUser)
       ∧ edit_post stUser 1 "T" "S" "I" (some 2) "B" = (.forbidden, stUser)
       ∧ delete_post stUser 1 = (.forbidden, stUser)) :=
  ⟨by decide, admin_gate_forbidden stUser "d" "T" "S" "B" "I" (some 2) 1 (by decide)⟩

theorem register_already (s : AppState) (salt : Nat) (email pw nm : String)
    (hsome : (s.users.find? (fun u => u.email == email)).isSome = true) :
    register s salt email pw nm = (.redirectLogin, s) := by
  simp [register, hsome, -List.find?_isSome]

/-- C2: when the submitted email already belongs to a stored user,
`register` redirects to login (the AlreadyExists outcome) and the user
rows are untouched; for a fresh email it succeeds, appending exactly
one user row, and a second registration with the same email is then
rejected with the state unchanged. -/
theorem register_spec (s : AppState) (salt : Nat) (email pw nm : String) :
    ((∃ u ∈ s.users, u.email = email) →
      register s salt email pw nm = (.redirectLogin, s))
    ∧ ((∀ u ∈ s.users, u.email ≠ email) →
      (register s salt email pw nm).1 = Response.redirectIndex
      ∧ (register s salt email pw nm).2.users
          = s.users ++ [⟨nextId (s.users.map (fun u => u.id)), email,
                         generate_password_hash salt pw, nm⟩]
      ∧ ∀ salt2 pw2 nm2,
          register (register s salt email pw nm).2 salt2 email pw2 nm2
            = (.redirectLogin, (register s salt email pw nm).2)) := by
  constructor
  · rintro ⟨u, hu, he⟩
    exact register_already s salt email pw nm
      (List.find?_isSome.mpr ⟨u, hu, by simp [he]⟩)
  · intro h
    have hnone : s.users.find? (fun v => v.email == email) = none :=
      List.find?_eq_none.mpr (fun u hu => by simp [h u hu])
    refine ⟨by simp [register, hnone], by simp [register, hnone], ?_⟩
    intro salt2 pw2 nm2
    have hsome2 : ((register s salt email pw nm).2.users.find?
        (fun v => v.email == email)).isSome = true := by
      simp [register, hnone, List.find?_append]
    exact register_already _ salt2 email pw2 nm2 hsome2

/-- Witness for C2: registering a fresh email on the empty database
succeeds; registering the already-present email `a@x.com` against
`stAdmin` is rejected with the state unchanged. -/
theorem register_spec_witness :
    (register emptyState 0 "a@x.com" "pw" "A").1 = Response.redirectIndex
    ∧ register stAdmin 5 "a@x.com" "q" "Z" = (.redirectLogin, stAdmin) :=
  ⟨((register_spec emptyState 0 "a@x.com" "pw" "A").2 (by decide)).1,
   (register_spec stAdmin 5 "a@x.com" "q" "Z").1 ⟨userW, by decide, by decide⟩⟩

/-- C3: `login` succeeds (redirect to the index with the session set)
iff a user row with the submitted email exists and
`check_password_hash` verifies the submitted password against that
row's stored salted hash; in particular, after registering a fresh
email the exact registration password logs in, and an unknown email or
a failed hash check re-renders the form (the InvalidCredentials
outcome). -/
theorem login_spec (s : AppState) (salt : Nat) (email pw nm : String) :
    ((login s email pw).1 = Response.redirectIndex ↔
      ∃ u, s.users.find? (fun v => v.email == email) = some u
        ∧ check_password_hash u.password pw = true)
    ∧ ((∀ u ∈ s.users, u.email ≠ email) →
      (login (register s salt email pw nm).2 email pw).1
        = Response.redirectIndex) := by
  constructor
  · cases hfind : s.users.find? (fun v => v.email == email) with
    | none => simp [login, hfind]
    | some u =>
      cases hcheck : check_password_hash u.password pw with
      | false => simp [login, hfind, hcheck]
      | true => simp [login, hfind, hcheck]
  · intro h
    have hnone : s.users.find? (fun v => v.email == email) = none :=
      List.find?_eq_none.mpr (fun u hu => by simp [h u hu])
    have hfind2 : (register s salt email pw nm).2.users.find?
        (fun v => v.email == email)
        = some ⟨nextId (s.users.map (fun u => u.id)), email,
                generate_password_hash salt pw, nm⟩ := by
      simp [register, hnone, List.find?_append]
    simp [login, hfind2, check_password_hash, generate_password_hash]

/-- Witness for C3: the admin's registration password logs in against
`stAdmin`, and registering `c@x.com` on the empty database and then
logging in with the same password succeeds. -/
theorem login_spec_witness :
    (login stAdmin "a@x.com" "pw").1 = Response.redirectIndex
    ∧ (login (register emptyState 0 "c@x.com" "s" "C").2 "c@x.com" "s").1
        = Response.redirectIndex :=
  ⟨(login_spec stAdmin 0 "a@x.com" "pw" "A").1.mpr ⟨userW, by decide, by decide⟩,
   (login_spec emptyState 0 "c@x.com" "s" "C").2 (by decide)⟩

/-- C4: submitting a comment while anonymous (no session) is rejected:
the handler flashes and redirects to login (the Unauthenticated
outcome) and the whole state — in particular the comment rows — is
returned untouched. -/
theorem anonymous_comment_rejected (s : AppState) (post_id : Nat) (text : String)
    (h : s.session = none) :
    show_post s post_id text = (.redirectLogin, s) := by
  simp [show_post, h]

/-- Witness for C4: an anonymous visitor's comment on post 1 is
redirected to login with the state unchanged. -/
theorem anonymous_comment_rejected_witness :
    show_post stAnon 1 "hi" = (.redirectLogin, stAnon) :=
  anonymous_comment_rejected stAnon 1 "hi" rfl

/-- C5 fails on the code: referential integrity is not an invariant of
the reachable states.  From the empty database, register a user (who is
then logged in) and submit a comment on the nonexistent post id 7: the
handler inserts the Comment row anyway (src/main.py lines 178-186 run
even when `BlogPost.query.get(post_id)` is None), leaving a comment
whose `parent_post_id` resolves to no stored post. -/
theorem refIntegrity_violated_reachable :
    refIntegrity (show_post (register emptyState 0 "a@x.com" "pw" "A").2 7 "hi").2
      = false := by
  decide

/-- C6 fails on the code: an authenticated caller commenting on a post
id that does not resolve gets no NotFound — the handler stores a
Comment row with the dangling `parent_post_id` and renders the page. -/
theorem comment_on_missing_post_created :
    show_post stUserNoPosts 5 "hello"
      = (.html, ⟨[userW, userB], [], [⟨1, "hello", some 2, some 5⟩], some 2⟩)
    ∧ stUserNoPosts.posts.find? (fun p => p.id == 5) = none := by
  exact ⟨rfl, rfl⟩

/-- C7 fails on the code: the admin deleting a nonexistent post id does
not get NotFound — `BlogPost.query.get` yields None and
`db.session.delete(None)` raises an unhandled exception (a 500, modelled
as `serverError`); the stored posts are unchanged, so the post count is
preserved, but the outcome is a crash rather than an explicit NotFound. -/
theorem delete_missing_post_crashes :
    delete_post stAdminNoPosts 3 = (.serverError, stAdminNoPosts)
    ∧ (delete_post stAdminNoPosts 3).2.posts.length
        = stAdminNoPosts.posts.length := by
  exact ⟨rfl, rfl⟩

/-- C8: when some stored post already carries the submitted title, the
admin's `add_new_post` is rejected by the unique-title schema
constraint (the DuplicateTitle outcome, an IntegrityError at commit)
and the state — in particular the number of stored posts — is
unchanged. -/
theorem duplicate_title_rejected (s : AppState) (today t st b img : String)
    (hadmin : is_admin s = true)
    (hdup : ∃ p ∈ s.posts, p.title = t) :
    add_new_post s today t st b img = (.integrityError, s)
    ∧ (add_new_post s today t st b img).2.posts.length = s.posts.length := by
  obtain ⟨p, hp, he⟩ := hdup
  have hany : s.posts.any (fun q => q.title == t) = true :=
    List.any_eq_true.mpr ⟨p, hp, by simp [he]⟩
  constructor
  · simp [add_new_post, admin_only, hadmin, hany]
  · simp [add_new_post, admin_only, hadmin, hany]

/-- Witness for C8: the admin re-using the stored title "Hello" is
rejected and the post count stays at one. -/
theorem duplicate_title_rejected_witness :
    add_new_post stAdmin "d" "Hello" "S" "B" "I" = (.integrityError, stAdmin) :=
  (duplicate_title_rejected stAdmin "d" "Hello" "S" "B" "I" rfl
    ⟨postW, by decide, rfl⟩).1

/-- C9: when the admin edits an existing post (and the new title does
not collide with another post's title, so the commit is accepted), the
stored post with that id afterwards is exactly the old row with title,
subtitle, img_url, author and body replaced — its `date` and `id`
fields are carried over unchanged, so the date stamp is never updated
on edit — and every other post row, the users and the comments are
untouched. -/
theorem edit_post_frame (s : AppState) (post_id : Nat) (t st img : String)
    (au : Option Nat) (b : String) (post : BlogPost)
    (hadmin : is_admin s = true)
    (hfind : s.posts.find? (fun p => p.id == post_id) = some post)
    (hfresh : s.posts.any (fun p => p.title == t && p.id != post_id) = false) :
    (edit_post s post_id t st img au b).2.posts.find? (fun p => p.id == post_id)
        = some { post with title := t, subtitle := st, img_url := img,
                           author_id := au, body := b }
    ∧ (∀ q ∈ s.posts, q.id ≠ post_id →
        q ∈ (edit_post s post_id t st img au b).2.posts)
    ∧ (edit_post s post_id t st img au b).2.users = s.users
    ∧ (edit_post s post_id t st img au b).2.comments = s.comments := by
  have hstate : (edit_post s post_id t st img au b).2
      = { s with posts := s.posts.map (fun q => if q.id == post_id then
            ({ post with title := t, subtitle := st, img_url := img,
                         author_id := au, body := b } : BlogPost) else q) } := by
    simp [edit_post, admin_only, hadmin, hfind, hfresh]
  refine ⟨?_, ?_, ?_, ?_⟩
  · rw [hstate]
    exact find?_map_update s.posts post_id post _ hfind rfl
  · intro q hq hne
    rw [hstate]
    exact List.mem_map.mpr ⟨q, hq, by simp [hne]⟩
  · rw [hstate]
  · rw [hstate]

/-- Witness for C9: editing the stored post 1 replaces the five
assigned fields while the date stamp "January 01, 2024" survives. -/
theorem edit_post_frame_witness :
    (edit_post stAdmin 1 "T2" "S2" "I2" (some 1) "B2").2.posts.find?
        (fun p => p.id == 1)
      = some ⟨1, some 1, "T2", "S2", "January 01, 2024", "B2", "I2"⟩ :=
  (edit_post_frame stAdmin 1 "T2" "S2" "I2" (some 1) "B2" postW rfl rfl rfl).1

/-- C10: `logout` never fails: for every caller, anonymous included, it
redirects to the post listing and changes nothing but the session,
which it clears; running it twice is the same as running it once. -/
theorem logout_spec (s : AppState) :
    (logout s).1 = Response.redirectIndex
    ∧ (logout s).2.users = s.users
    ∧ (logout s).2.posts = s.posts
    ∧ (logout s).2.comments = s.comments
    ∧ (logout s).2.session = none
    ∧ logout (logout s).2 = logout s := by
  simp [logout]
